import Mathlib

/-!
Shallow embedding of the CLI front end `whisper_ctranslate2.py` of the
whisper-ctranslate2 repository.  Pure string/number computations of the
source are translated directly; the argument-parsing boilerplate
(`argparse` declarations) is taken as given, so the model starts from the
parsed argument record, exactly as `main` does after `read_command_line()`.
Floats of the source are modelled as exact rationals (`ℚ`); external
collaborators (the `.languages` resolver, the inference engine, the output
writer, the live-capture probe, the filesystem) enter the model as
parameters, and their invocations are recorded as an event trace.
-/

namespace WhisperCT

/-- Errors raised while coercing scalar tokens, mirroring the Python
`ValueError`s of `optional_int` (line 28) and `str2bool` (line 32):
`invalidInt` is the `ValueError` raised by `int(string)`; `expectedOneOf`
carries the accepted token set and the offending token of the
`str2bool` message. -/
inductive CoerceError where
  | invalidInt (token : String)
  | expectedOneOf (accepted : List String) (got : String)
deriving DecidableEq

/-- ASCII whitespace stripped by Python `int(string)` around the numeral. -/
def isAsciiSpace (c : Char) : Bool :=
  c = ' ' || c = '\t' || c = '\n' || c = '\r' || c = '\x0b' || c = '\x0c'

def isAsciiDigit (c : Char) : Bool :=
  '0' ≤ c && c ≤ '9'

def digitVal (c : Char) : Nat := c.toNat - 48

/-- Digit part of a Python integer literal after the sign: underscores may
appear singly between digits (`int("1_0") = 10`), never leading, trailing
or doubled. -/
def pyDigitsAux : List Char → Nat → Option Nat
  | [], acc => some acc
  | '_' :: c :: rest, acc =>
      if isAsciiDigit c then pyDigitsAux rest (acc * 10 + digitVal c) else none
  | c :: rest, acc =>
      if isAsciiDigit c then pyDigitsAux rest (acc * 10 + digitVal c) else none

/-- At least one digit is required. -/
def pyDigits : List Char → Option Nat
  | [] => none
  | c :: rest => if isAsciiDigit c then pyDigitsAux rest (digitVal c) else none

/-- Embedding of Python `int(string)` on ASCII input: surrounding
whitespace is stripped, an optional single sign precedes a nonempty
decimal digit sequence (underscores allowed singly between digits);
`none` models the `ValueError` raised on any other input. -/
def pythonInt (s : String) : Option Int :=
  let cs := ((s.toList.dropWhile isAsciiSpace).reverse.dropWhile isAsciiSpace).reverse
  match cs with
  | '+' :: rest => (pyDigits rest).map (fun n => (n : Int))
  | '-' :: rest => (pyDigits rest).map (fun n => -(n : Int))
  | rest => (pyDigits rest).map (fun n => (n : Int))

/-- `optional_int` (line 28): the literal token `"None"` denotes absence,
anything else goes through Python `int`. -/
def optional_int (s : String) : Except CoerceError (Option Int) :=
  if s = "None" then .ok none
  else
    match pythonInt s with
    | some n => .ok (some n)
    | none => .error (.invalidInt s)

/-- `str2bool` (line 32): exactly the tokens `"True"` and `"False"` are
accepted; any other token raises a `ValueError` naming the accepted set
and the offending token. -/
def str2bool (s : String) : Except CoerceError Bool :=
  if s = "True" then .ok true
  else if s = "False" then .ok false
  else .error (.expectedOneOf ["True", "False"] s)

/-- The coercion the `--vad_filter` flag uses (line 213, `type=bool`):
Python `bool(string)` is string truthiness, true exactly on nonempty
strings, and never raises. -/
def pythonBool (s : String) : Bool := s != ""

/-- Number of elements of `np.arange start stop step` over exact
rationals (numpy semantics for a nonzero step):
`max 0 ⌈(stop - start) / step⌉`. -/
def arangeLen (start stop step : ℚ) : ℕ :=
  (⌈(stop - start) / step⌉).toNat

/-- `np.arange start stop step` over exact rationals: the arithmetic
progression `start, start + step, …` of `arangeLen` elements, which for a
positive step is every value strictly below `stop` (the stop bound is
exclusive). -/
def arange (start stop step : ℚ) : List ℚ :=
  (List.range (arangeLen start stop step)).map
    (fun i : ℕ => start + (i : ℚ) * step)

/-- Lines 317-321: the temperature fallback ladder.  With no increment the
ladder is the single base temperature; with an increment it is
`np.arange(temperature, 1.0 + 1e-6, increment)`.  A zero increment makes
`np.arange` raise `ZeroDivisionError`, modelled as `none`. -/
def temperatureLadder (t0 : ℚ) : Option ℚ → Option (List ℚ)
  | none => some [t0]
  | some inc => if inc = 0 then none else some (arange t0 (1 + 1 / 1000000) inc)

/-- The ladder as claim C1 words it (for comparison with
`temperatureLadder`, which it is not equal to): the arithmetic sequence
from `t0` with step `inc` keeping every value up to AND INCLUDING the
bound `1.0 + 1e-6`. -/
def ladderClaimed (t0 inc : ℚ) : List ℚ :=
  (List.range ((⌊(1 + 1 / 1000000 - t0) / inc⌋ + 1).toNat)).map
    (fun i : ℕ => t0 + (i : ℚ) * inc)

/-- Observable side effects of `main`: `warnings.warn`, `print`,
`sys.stderr.write`, and the calls into the external collaborators
(`Live(...).inference()`, `Transcribe().inference(...)`, `writer(...)`). -/
inductive Event where
  | warn (msg : String)
  | stdout (msg : String)
  | stderrOut (msg : String)
  | liveInference
  | engineCall (path : String)
  | writerCall (path : String)
deriving DecidableEq

/-- Python truthiness of an optional string (`not model_directory`,
`not language`): `None` and the empty string are falsy. -/
def pyTruthyOpt : Option String → Bool
  | none => false
  | some s => s != ""

/-- Python `s.endswith(suffix)`. -/
def pyEndsWith (s sfx : String) : Bool := sfx.toList.isSuffixOf s.toList

/-- Lines 325-334, the model/language compatibility correction: when no
custom model directory is supplied (Python truthiness), the model name
ends in `".en"` and the resolved language is not in `{"en", "English"}`,
the language is forced to `"en"`; a warning is emitted only when the
language was not `None`.  Returns the corrected language and the emitted
events. -/
def correctLanguage (model_directory : Option String) (model : String)
    (language : Option String) : Option String × List Event :=
  if !pyTruthyOpt model_directory && pyEndsWith model ".en"
      && language != some "en" && language != some "English" then
    (some "en",
      match language with
      | some l =>
          [Event.warn (model ++ " is an English-only model but receipted '"
            ++ l ++ "'; using English instead.")]
      | none => [])
  else (language, [])

/-- Python `s.split(",")` (no maxsplit, one-character separator); note
`"".split(",") == [""]`. -/
def splitCommaAux : List Char → List Char → List String
  | [], acc => [String.mk acc.reverse]
  | ',' :: rest, acc => String.mk acc.reverse :: splitCommaAux rest []
  | c :: rest, acc => splitCommaAux rest (c :: acc)

def pySplitComma (s : String) : List String := splitCommaAux s.toList []

/-- The list comprehension of line 336: `int(t)` for each token in order,
raising on the first token `int` cannot parse. -/
def parseIntList : List String → Except CoerceError (List Int)
  | [] => .ok []
  | t :: ts =>
      match pythonInt t with
      | none => .error (.invalidInt t)
      | some n =>
          match parseIntList ts with
          | .ok ns => .ok (n :: ns)
          | .error e => .error e

/-- Line 336: `suppress_tokens = [int(t) for t in suppress_tokens.split(",")]`. -/
def parseSuppressTokens (s : String) : Except CoerceError (List Int) :=
  parseIntList (pySplitComma s)

/-- The validated configuration object constructed at lines 337-358.  The
class itself lives in the external `.transcribe` module; its fields here
are exactly the keyword arguments of the construction site. -/
structure TranscriptionOptions where
  beam_size : Option Int
  best_of : Option Int
  patience : ℚ
  length_penalty : ℚ
  log_prob_threshold : Option ℚ
  no_speech_threshold : Option ℚ
  compression_ratio_threshold : Option ℚ
  condition_on_previous_text : Bool
  temperature : List ℚ
  initial_prompt : Option String
  suppress_tokens : List Int
  word_timestamps : Bool
  prepend_punctuations : String
  append_punctuations : String
  print_colors : Bool
  vad_filter : Bool
  vad_threshold : Option ℚ
  vad_min_speech_duration_ms : Option Int
  vad_max_speech_duration_s : Option Int
  vad_min_silence_duration_ms : Option Int
deriving DecidableEq

/-- The parsed argument record as `main` receives it from
`read_command_line()` (floats as `ℚ`, optionals as `Option`). -/
structure Args where
  audio : List String
  model : String
  model_dir : Option String
  output_dir : String
  output_format : String
  verbose : Bool
  task : String
  language : Option String
  threads : Option Int
  temperature : ℚ
  temperature_increment_on_fallback : Option ℚ
  best_of : Option Int
  beam_size : Option Int
  patience : ℚ
  length_penalty : ℚ
  suppress_tokens : String
  initial_prompt : Option String
  condition_on_previous_text : Bool
  compression_ratio_threshold : Option ℚ
  logprob_threshold : Option ℚ
  no_speech_threshold : Option ℚ
  word_timestamps : Bool
  prepend_punctuations : String
  append_punctuations : String
  device : String
  vad_filter : Bool
  vad_threshold : Option ℚ
  vad_min_speech_duration_ms : Option Int
  vad_max_speech_duration_s : Option Int
  vad_min_silence_duration_ms : Option Int
  device_index : List Int
  compute_type : String
  model_directory : Option String
  print_colors : Bool
  live_transcribe : Bool

/-- The external state `main` consults: whether the live-capture
capability is available (`Live.is_available()`) and whether
`<model_directory>/model.bin` exists on disk. -/
structure Env where
  liveAvailable : Bool
  modelBinExists : Bool

/-- Fatal conditions `main` can raise, in the spec's taxonomy:
`zeroDivision` is the `ZeroDivisionError` from a zero `np.arange` step;
`parseError` the `ValueError` from `int` (ParseError);
`colorsWithoutVerbose` the `RuntimeError` of line 361
(ConfigValidationError); `liveNotAvailable` the error of line 364
(UnsupportedFeatureError); `modelFileNotFound` the `RuntimeError` of line
379 (ResourceNotFoundError), carrying the missing path. -/
inductive MainError where
  | zeroDivision
  | parseError (e : CoerceError)
  | colorsWithoutVerbose
  | liveNotAvailable
  | modelFileNotFound (path : String)
deriving DecidableEq

/-- Outcome of one `main` invocation: the emitted event trace, and the
fatal error if one was raised (events already emitted stay in the trace). -/
structure MainResult where
  trace : List Event
  error : Option MainError
deriving DecidableEq

instance {ε : Type u} {α : Type v} [DecidableEq ε] [DecidableEq α] :
    DecidableEq (Except ε α) := fun x y =>
  match x, y with
  | .ok a, .ok b =>
      match decEq a b with
      | .isTrue h => .isTrue (by rw [h])
      | .isFalse h => .isFalse (fun hab => h (by cases hab; rfl))
  | .ok _, .error _ => .isFalse (fun h => Except.noConfusion h)
  | .error _, .ok _ => .isFalse (fun h => Except.noConfusion h)
  | .error e, .error f =>
      match decEq e f with
      | .isTrue h => .isTrue (by rw [h])
      | .isFalse h => .isFalse (fun hef => h (by cases hef; rfl))

def detectLanguageMsg : String :=
  "Detecting language using up to the first 30 seconds. Use `--language` to specify the language"

def colorsNeedTimestampsMsg : String :=
  "Print colors requires word-level time stamps. Generated files in output directory will have word-level timestamps"

def noAudioMsg : String := "You need to specify one or more audio files\n"

/-- Lines 317-358 of `main`: derive the temperature ladder, resolve the
language through `from_language_to_iso_code` (the external `.languages`
module, passed in as `resolve`), apply the model/language correction,
parse the suppress tokens, and construct `TranscriptionOptions`.  Returns
the events emitted so far, and either the fatal error or the corrected
language together with the options. -/
def resolveStage (resolve : Option String → Option String) (a : Args) :
    List Event × Except MainError (Option String × TranscriptionOptions) :=
  match temperatureLadder a.temperature a.temperature_increment_on_fallback with
  | none => ([], .error .zeroDivision)
  | some temperature =>
      let lw := correctLanguage a.model_directory a.model (resolve a.language)
      match parseSuppressTokens a.suppress_tokens with
      | .error e => (lw.2, .error (.parseError e))
      | .ok suppress =>
          (lw.2, .ok (lw.1,
            { beam_size := a.beam_size
              best_of := a.best_of
              patience := a.patience
              length_penalty := a.length_penalty
              log_prob_threshold := a.logprob_threshold
              no_speech_threshold := a.no_speech_threshold
              compression_ratio_threshold := a.compression_ratio_threshold
              condition_on_previous_text := a.condition_on_previous_text
              temperature := temperature
              initial_prompt := a.initial_prompt
              suppress_tokens := suppress
              word_timestamps := a.word_timestamps
              prepend_punctuations := a.prepend_punctuations
              append_punctuations := a.append_punctuations
              print_colors := a.print_colors
              vad_filter := a.vad_filter
              vad_threshold := a.vad_threshold
              vad_min_speech_duration_ms := a.vad_min_speech_duration_ms
              vad_max_speech_duration_s := a.vad_max_speech_duration_s
              vad_min_silence_duration_ms := a.vad_min_silence_duration_ms }))

/-- Events that invoke the inference engine or the output writer. -/
def isCallEvent : Event → Bool
  | .liveInference => true
  | .engineCall _ => true
  | .writerCall _ => true
  | _ => false

/-- `main` from line 317 on (the `os.makedirs` call and the
argument-record destructuring above it have no observable effect in the
model).  Follows the source order exactly: resolution stage, the
colors/verbose check (line 360), the live-availability check (line 363),
the two advisory prints (lines 366-374), the custom-model-directory
payload check (lines 376-379), then dispatch to live mode, the empty
input diagnostic, or the batch loop (lines 384-418). -/
def mainModel (resolve : Option String → Option String) (env : Env)
    (a : Args) : MainResult :=
  match resolveStage resolve a with
  | (tr, .error e) => { trace := tr, error := some e }
  | (tr, .ok (language, options)) =>
      if !a.verbose && options.print_colors then
        { trace := tr, error := some .colorsWithoutVerbose }
      else if a.live_transcribe && !env.liveAvailable then
        { trace := tr, error := some .liveNotAvailable }
      else
        let t1 := tr
          ++ (if a.verbose && !pyTruthyOpt language then
                [Event.stdout detectLanguageMsg] else [])
          ++ (if options.print_colors && (a.output_dir != "")
                && !options.word_timestamps then
                [Event.stdout colorsNeedTimestampsMsg] else [])
        if pyTruthyOpt a.model_directory && !env.modelBinExists then
          { trace := t1,
            error := some (.modelFileNotFound
              ((a.model_directory.getD "") ++ "/model.bin")) }
        else if a.live_transcribe then
          { trace := t1 ++ [Event.liveInference], error := none }
        else if a.audio.isEmpty then
          { trace := t1 ++ [Event.stderrOut noAudioMsg], error := none }
        else
          { trace := t1 ++ a.audio.flatMap
              (fun p => [Event.engineCall p, Event.writerCall p]),
            error := none }

/-- The argument record produced by `read_command_line()` when every flag
keeps its `argparse` default and no positional input is given. -/
def defaultArgs : Args where
  audio := []
  model := "small"
  model_dir := none
  output_dir := "."
  output_format := "all"
  verbose := true
  task := "transcribe"
  language := none
  threads := some 0
  temperature := 0
  temperature_increment_on_fallback := some (1 / 5)
  best_of := some 5
  beam_size := some 5
  patience := 1
  length_penalty := 1
  suppress_tokens := "-1"
  initial_prompt := none
  condition_on_previous_text := true
  compression_ratio_threshold := some (12 / 5)
  logprob_threshold := some (-1)
  no_speech_threshold := some (3 / 5)
  word_timestamps := false
  prepend_punctuations := "\"'“¿([\x7b-"
  append_punctuations := "\"'.。,，!！?？:：”)]\x7d、"
  device := "auto"
  vad_filter := false
  vad_threshold := none
  vad_min_speech_duration_ms := none
  vad_max_speech_duration_s := none
  vad_min_silence_duration_ms := none
  device_index := [0]
  compute_type := "auto"
  model_directory := none
  print_colors := false
  live_transcribe := false

/-- The `TranscriptionOptions` that `resolveStage` builds from
`defaultArgs`. -/
def optsDefault : TranscriptionOptions where
  beam_size := some 5
  best_of := some 5
  patience := 1
  length_penalty := 1
  log_prob_threshold := some (-1)
  no_speech_threshold := some (3 / 5)
  compression_ratio_threshold := some (12 / 5)
  condition_on_previous_text := true
  temperature := [0, 1 / 5, 2 / 5, 3 / 5, 4 / 5, 1]
  initial_prompt := none
  suppress_tokens := [-1]
  word_timestamps := false
  prepend_punctuations := "\"'“¿([\x7b-"
  append_punctuations := "\"'.。,，!！?？:：”)]\x7d、"
  print_colors := false
  vad_filter := false
  vad_threshold := none
  vad_min_speech_duration_ms := none
  vad_max_speech_duration_s := none
  vad_min_silence_duration_ms := none

/-- A base temperature above the arange bound: the only flag changed from
the defaults is `--temperature 2`. -/
def argsHighTemp : Args := { defaultArgs with temperature := 2 }

/-- `--print_colors True --verbose False` with an input file. -/
def argsColors : Args :=
  { defaultArgs with print_colors := true, verbose := false, audio := ["a.wav"] }

/-- `--print_colors True --verbose False --suppress_tokens 1,x` with an
input file: two independent faults at once. -/
def argsColorsBadTokens : Args :=
  { defaultArgs with
      print_colors := true
      verbose := false
      suppress_tokens := "1,x"
      audio := ["a.wav"] }

/-- No audio inputs, live mode disabled, but an invalid colors/verbose
combination. -/
def argsNoAudioColors : Args :=
  { defaultArgs with print_colors := true, verbose := false }

/-- Two input files, everything else at the defaults. -/
def argsBatch : Args := { defaultArgs with audio := ["a.wav", "b.wav"] }

/-- Whether an `Except` value is a success (the invocation raised no
error up to that point). -/
def exceptOk {ε : Type u} {α : Type v} : Except ε α → Bool
  | .ok _ => true
  | .error _ => false

theorem arange_length (start stop step : ℚ) :
    (arange start stop step).length = arangeLen start stop step := by
  simp [arange]

/-- For a positive step, `arange` holds exactly the progression values
strictly below the (exclusive) stop bound. -/
theorem mem_arange {start stop step x : ℚ} (hstep : 0 < step) :
    x ∈ arange start stop step ↔
      ∃ i : ℕ, x = start + (i : ℚ) * step ∧ x < stop := by
  unfold arange arangeLen
  simp only [List.mem_map, List.mem_range]
  constructor
  · rintro ⟨i, hi, rfl⟩
    refine ⟨i, rfl, ?_⟩
    have h1 : (i : ℤ) < ⌈(stop - start) / step⌉ := Int.lt_toNat.mp hi
    have h2 : (i : ℚ) < (stop - start) / step := by
      exact_mod_cast Int.lt_ceil.mp h1
    have h3 : (i : ℚ) * step < stop - start := (lt_div_iff₀ hstep).mp h2
    linarith
  · rintro ⟨i, rfl, hx⟩
    refine ⟨i, ?_, rfl⟩
    have h3 : (i : ℚ) * step < stop - start := by linarith
    have h2 : (i : ℚ) < (stop - start) / step := (lt_div_iff₀ hstep).mpr h3
    have h1 : ((i : ℕ) : ℤ) < ⌈(stop - start) / step⌉ :=
      Int.lt_ceil.mpr (by exact_mod_cast h2)
    exact Int.lt_toNat.mpr h1

/-- For a positive step the `arange` progression is (weakly) increasing. -/
theorem arange_pairwise {start stop step : ℚ} (hstep : 0 < step) :
    (arange start stop step).Pairwise (· ≤ ·) := by
  unfold arange
  refine List.Pairwise.map _ (fun i j hij => ?_) (List.pairwise_lt_range _)
  have : (i : ℚ) ≤ (j : ℚ) := by exact_mod_cast hij.le
  nlinarith

/-- For a positive step the `arange` list is nonempty as soon as the start
lies strictly below the stop bound. -/
theorem arange_ne_nil {start stop step : ℚ} (hstep : 0 < step)
    (h : start < stop) : arange start stop step ≠ [] := by
  have h2 : 0 < (stop - start) / step := div_pos (by linarith) hstep
  have h3 : 0 < ⌈(stop - start) / step⌉ := Int.ceil_pos.mpr h2
  have h4 : 0 < arangeLen start stop step := by
    unfold arangeLen; omega
  have h5 : 0 < (arange start stop step).length := by
    rw [arange_length]; exact h4
  exact List.length_pos.mp h5

theorem temperatureLadder_pos {t0 inc : ℚ} (hinc : 0 < inc) :
    temperatureLadder t0 (some inc) = some (arange t0 (1 + 1 / 1000000) inc) := by
  simp [temperatureLadder, hinc.ne']

/-- A successful `parseIntList` result pairs every token, in order, with
the integer Python `int` parses it to. -/
theorem parseIntList_ok_forall2 :
    ∀ ts l, parseIntList ts = .ok l →
      List.Forall₂ (fun t n => pythonInt t = some n) ts l := by
  intro ts
  induction ts with
  | nil => intro l h; simp [parseIntList] at h; simp [← h]
  | cons t ts ih =>
      intro l h
      unfold parseIntList at h
      cases hp : pythonInt t with
      | none => rw [hp] at h; exact absurd h (by simp)
      | some n =>
          rw [hp] at h
          cases hr : parseIntList ts with
          | error e => rw [hr] at h; exact absurd h (by simp)
          | ok ns =>
              rw [hr] at h
              cases h
              exact List.Forall₂.cons hp (ih ns hr)

/-- If some token is unparseable, `parseIntList` fails with an
`invalidInt` error naming an unparseable token of the list. -/
theorem parseIntList_error_of_mem :
    ∀ ts t, t ∈ ts → pythonInt t = none →
      ∃ u, u ∈ ts ∧ pythonInt u = none
        ∧ parseIntList ts = .error (.invalidInt u) := by
  intro ts
  induction ts with
  | nil => intro t ht; exact absurd ht (List.not_mem_nil t)
  | cons hd tl ih =>
      intro t ht htn
      cases hp : pythonInt hd with
      | none =>
          exact ⟨hd, List.mem_cons_self hd tl, hp, by unfold parseIntList; rw [hp]⟩
      | some n =>
          have htl : t ∈ tl := by
            rcases List.mem_cons.mp ht with rfl | h
            · rw [hp] at htn; exact absurd htn (by simp)
            · exact h
          obtain ⟨u, hu, hun, herr⟩ := ih t htl htn
          refine ⟨u, List.mem_cons_of_mem hd hu, hun, ?_⟩
          unfold parseIntList
          rw [hp, herr]

/-- The model/language corrector emits warnings only, never an engine,
writer or live call. -/
theorem correctLanguage_no_calls (dir : Option String) (model : String)
    (lang : Option String) :
    ∀ ev ∈ (correctLanguage dir model lang).2, isCallEvent ev = false := by
  intro ev hev
  unfold correctLanguage at hev
  split at hev
  · cases lang with
    | none => simp at hev
    | some l =>
        simp at hev
        simp [hev, isCallEvent]
  · simp at hev

/-- Events emitted during the resolution stage are never engine, writer
or live calls. -/
theorem resolveStage_no_calls (resolve : Option String → Option String)
    (a : Args) :
    ∀ ev ∈ (resolveStage resolve a).1, isCallEvent ev = false := by
  intro ev hev
  unfold resolveStage at hev
  split at hev
  · simp at hev
  · split at hev
    · exact correctLanguage_no_calls _ _ _ ev hev
    · exact correctLanguage_no_calls _ _ _ ev hev

/-- Inverting a successful resolution stage: the options are built from
the argument record, the ladder and the parsed suppress tokens. -/
theorem resolveStage_ok (resolve : Option String → Option String) (a : Args)
    (lang : Option String) (opts : TranscriptionOptions)
    (h : (resolveStage resolve a).2 = .ok (lang, opts)) :
    temperatureLadder a.temperature a.temperature_increment_on_fallback
        = some opts.temperature
      ∧ parseSuppressTokens a.suppress_tokens = .ok opts.suppress_tokens
      ∧ opts.print_colors = a.print_colors
      ∧ opts.word_timestamps = a.word_timestamps
      ∧ lang = (correctLanguage a.model_directory a.model (resolve a.language)).1 := by
  unfold resolveStage at h
  split at h
  · exact absurd h (by simp)
  · rename_i temperature hladder
    split at h
    · exact absurd h (by simp)
    · rename_i suppress hparse
      simp only [Except.ok.injEq, Prod.mk.injEq] at h
      obtain ⟨rfl, rfl⟩ := h
      exact ⟨hladder, hparse, rfl, rfl, rfl⟩

theorem no_calls_append {l₁ l₂ : List Event}
    (h₁ : ∀ ev ∈ l₁, isCallEvent ev = false)
    (h₂ : ∀ ev ∈ l₂, isCallEvent ev = false) :
    ∀ ev ∈ l₁ ++ l₂, isCallEvent ev = false := by
  intro ev hev
  rcases List.mem_append.mp hev with h | h
  · exact h₁ ev h
  · exact h₂ ev h

theorem no_calls_stdout_if (c : Prop) [Decidable c] (m : String) :
    ∀ ev ∈ (if c then [Event.stdout m] else []), isCallEvent ev = false := by
  split <;> simp [isCallEvent]

/-- Claim C1 (corrected): with no increment the ladder is `[t0]`; with a
positive increment it is the arithmetic sequence from `t0` with that
step containing every value STRICTLY BELOW the bound `1.0 + 1e-6` (the
`np.arange` stop bound is exclusive, not inclusive as the claim words
it); in particular for base `0.0` and increment `0.2` it is exactly
`[0.0, 0.2, 0.4, 0.6, 0.8, 1.0]`. -/
theorem c1_temperature_ladder :
    (∀ t0 : ℚ, temperatureLadder t0 none = some [t0])
    ∧ (∀ t0 inc : ℚ, 0 < inc →
        temperatureLadder t0 (some inc)
            = some (arange t0 (1 + 1 / 1000000) inc)
          ∧ ∀ x : ℚ, x ∈ arange t0 (1 + 1 / 1000000) inc
              ↔ ∃ i : ℕ, x = t0 + (i : ℚ) * inc ∧ x < 1 + 1 / 1000000)
    ∧ temperatureLadder 0 (some (1 / 5))
        = some [0, 1 / 5, 2 / 5, 3 / 5, 4 / 5, 1] := by
  refine ⟨fun t0 => rfl,
    fun t0 inc hinc => ⟨temperatureLadder_pos hinc, fun x => mem_arange hinc⟩,
    ?_⟩
  with_unfolding_all rfl

/-- Claim C1, witness: `0.4` is in the ladder for base `0.0`, step `0.2`. -/
theorem c1_witness : (2 / 5 : ℚ) ∈ arange 0 (1 + 1 / 1000000) (1 / 5) := by
  obtain ⟨-, h2, -⟩ := c1_temperature_ladder
  exact ((h2 0 (1 / 5) (by norm_num)).2 (2 / 5)).mpr
    ⟨2, by norm_num, by norm_num⟩

/-- Claim C1, counterexample to the claim as stated: with base
`1.0 + 1e-6` (exactly the bound) and increment `0.2`, the claimed
bound-inclusive sequence is `[1.0 + 1e-6]`, but the code returns the
empty ladder, because `np.arange` excludes its stop bound. -/
theorem c1_counterexample :
    temperatureLadder (1 + 1 / 1000000) (some (1 / 5)) = some []
      ∧ ladderClaimed (1 + 1 / 1000000) (1 / 5) = [1 + 1 / 1000000]
      ∧ temperatureLadder (1 + 1 / 1000000) (some (1 / 5))
          ≠ some (ladderClaimed (1 + 1 / 1000000) (1 / 5)) := by
  have h1 : temperatureLadder (1 + 1 / 1000000) (some (1 / 5)) = some [] := by
    with_unfolding_all rfl
  have h2 : ladderClaimed (1 + 1 / 1000000) (1 / 5) = [1 + 1 / 1000000] := by
    with_unfolding_all rfl
  refine ⟨h1, h2, ?_⟩
  rw [h1, h2]
  simp

/-- Claim C2 (corrected): a constructed `TranscriptionOptions` has a
nonempty, monotonically non-decreasing `temperature` — PROVIDED the
increment is absent, or is positive with the base temperature strictly
below the bound `1.0 + 1e-6`; it is not true "regardless of the base
temperature and increment values supplied". -/
theorem c2_temperature_invariant (resolve : Option String → Option String)
    (a : Args) (lang : Option String) (opts : TranscriptionOptions)
    (h : (resolveStage resolve a).2 = .ok (lang, opts))
    (hinc : a.temperature_increment_on_fallback = none
      ∨ ∃ inc, a.temperature_increment_on_fallback = some inc ∧ 0 < inc
          ∧ a.temperature < 1 + 1 / 1000000) :
    opts.temperature ≠ [] ∧ opts.temperature.Pairwise (· ≤ ·) := by
  obtain ⟨hladder, -, -, -, -⟩ := resolveStage_ok resolve a lang opts h
  rcases hinc with hnone | ⟨inc, hsome, hpos, hlt⟩
  · rw [hnone] at hladder
    have h2 : [a.temperature] = opts.temperature := Option.some.inj hladder
    rw [← h2]
    exact ⟨by simp, by simp⟩
  · rw [hsome, temperatureLadder_pos hpos] at hladder
    have h2 := Option.some.inj hladder
    rw [← h2]
    exact ⟨arange_ne_nil hpos hlt, arange_pairwise hpos⟩

/-- Claim C2, witness: the default invocation (base `0.0`, increment
`0.2`) constructs options with a nonempty non-decreasing ladder. -/
theorem c2_witness :
    optsDefault.temperature ≠ []
      ∧ optsDefault.temperature.Pairwise (· ≤ ·) := by
  refine c2_temperature_invariant (fun l => l) defaultArgs none optsDefault
    ?_ (Or.inr ⟨1 / 5, rfl, by norm_num, ?_⟩)
  · with_unfolding_all rfl
  · show (0 : ℚ) < 1 + 1 / 1000000
    norm_num

/-- Claim C2, counterexample to the claim as stated: `--temperature 2`
(all other flags at their defaults) reaches construction of
`TranscriptionOptions` with an EMPTY `temperature` tuple, since
`np.arange(2.0, 1.000001, 0.2)` is empty. -/
theorem c2_counterexample :
    (resolveStage (fun l => l) argsHighTemp).2
      = .ok (none, { optsDefault with temperature := [] }) := by
  with_unfolding_all rfl

/-- Claim C3 (corrected): the advisory is emitted exactly when no custom
model directory is supplied, the model name ends in `".en"` and the
resolved language is neither absent nor `en`/`English`; with a custom
directory supplied nothing changes (e.g. `small.en`/`fr`/custom keeps
`fr`); BUT when the language is absent (and the model is English-only
with no custom directory) the language is still silently forced to
`"en"` — contrary to the claim, a correction is applied, just without
the advisory. -/
theorem c3_language_correction :
    (∀ dir model lang,
        (correctLanguage dir model lang).2 ≠ [] ↔
          (pyTruthyOpt dir = false ∧ pyEndsWith model ".en" = true
            ∧ lang ≠ none ∧ lang ≠ some "en" ∧ lang ≠ some "English"))
    ∧ (∀ dir model lang, pyTruthyOpt dir = true →
        correctLanguage dir model lang = (lang, []))
    ∧ (∀ dir model, pyTruthyOpt dir = false → pyEndsWith model ".en" = true →
        correctLanguage dir model none = (some "en", []))
    ∧ (correctLanguage (some "/custom") "small.en" (some "fr")).1
        = some "fr" := by
  refine ⟨?_, ?_, ?_, by with_unfolding_all rfl⟩
  · intro dir model lang
    have hiff : (!pyTruthyOpt dir && pyEndsWith model ".en"
          && lang != some "en" && lang != some "English") = true
        ↔ (pyTruthyOpt dir = false ∧ pyEndsWith model ".en" = true
            ∧ lang ≠ some "en" ∧ lang ≠ some "English") := by
      simp [Bool.and_eq_true, Bool.not_eq_true', bne_iff_ne, and_assoc]
    unfold correctLanguage
    split
    · rename_i hcond
      obtain ⟨h1, h2, h4, h5⟩ := hiff.mp hcond
      cases lang with
      | none => simp
      | some l => simp [h1, h2, h4, h5]
    · rename_i hcond
      constructor
      · intro hne; exact absurd rfl hne
      · rintro ⟨h1, h2, h3, h4, h5⟩
        exact absurd (hiff.mpr ⟨h1, h2, h4, h5⟩) hcond
  · intro dir model lang hdir
    unfold correctLanguage
    rw [hdir]
    simp
  · intro dir model hdir hmodel
    unfold correctLanguage
    rw [hdir, hmodel]
    simp

/-- Claim C3, witness: with a custom model directory supplied, an
English-only model and language `fr` stay untouched. -/
theorem c3_witness :
    correctLanguage (some "/d") "small.en" (some "fr") = (some "fr", []) := by
  obtain ⟨-, h2, -, -⟩ := c3_language_correction
  exact h2 (some "/d") "small.en" (some "fr") (by decide)

/-- Claim C3, counterexample to the claim as stated: model `small.en`,
no custom directory, language ABSENT — the claim says no correction is
applied, but the code forces the language to `"en"` (emitting no
advisory). -/
theorem c3_counterexample :
    (correctLanguage none "small.en" none).1 = some "en"
      ∧ (correctLanguage none "small.en" none).2 = [] := by
  constructor <;> with_unfolding_all rfl

/-- Claim C4 (confirmed): whenever the model is an English-only variant
(name ending `".en"`) and no custom model directory is supplied, the
language passed onward is English — the code's own English set is
`{"en", "English"}`, and any language outside it (including absence) is
replaced by `"en"`; if the resolved language is not the display name
`"English"` (the canonical resolver never produces it), the result is
exactly `some "en"`. -/
theorem c4_english_only_language (dir : Option String) (model : String)
    (lang : Option String) (hdir : pyTruthyOpt dir = false)
    (hmodel : pyEndsWith model ".en" = true) :
    ((correctLanguage dir model lang).1 = some "en"
      ∨ (correctLanguage dir model lang).1 = some "English")
    ∧ (lang ≠ some "English" → (correctLanguage dir model lang).1
        = some "en") := by
  unfold correctLanguage
  by_cases h1 : lang = some "en"
  · subst h1; simp
  · by_cases h2 : lang = some "English"
    · subst h2; simp [hdir, hmodel]
    · simp [hdir, hmodel, h1, h2]

/-- Claim C4, witness: `medium.en` with resolved language `ca` and no
custom directory sends `"en"` onward. -/
theorem c4_witness :
    (correctLanguage none "medium.en" (some "ca")).1 = some "en" :=
  (c4_english_only_language none "medium.en" (some "ca") rfl
    (by decide)).2 (by decide)

/-- Claim C5 (corrected): whenever `print_colors` is set and verbose
output is disabled, the invocation fails fatally before any engine,
writer or live call; the error is the `ConfigValidationError` of line
361 PROVIDED the earlier resolution steps (temperature ladder,
suppress-token parsing) succeed — an earlier `ParseError` or
`ZeroDivisionError` preempts it otherwise. -/
theorem c5_colors_require_verbose (resolve : Option String → Option String)
    (env : Env) (a : Args) (hc : a.print_colors = true)
    (hv : a.verbose = false) :
    (mainModel resolve env a).error ≠ none
    ∧ (∀ ev ∈ (mainModel resolve env a).trace, isCallEvent ev = false)
    ∧ (exceptOk (resolveStage resolve a).2 = true →
        (mainModel resolve env a).error = some .colorsWithoutVerbose) := by
  rcases hres : resolveStage resolve a with ⟨tr, res⟩
  have htr : ∀ ev ∈ tr, isCallEvent ev = false := by
    have h := resolveStage_no_calls resolve a
    rw [hres] at h
    exact h
  cases res with
  | error e =>
      have hmain : mainModel resolve env a
          = { trace := tr, error := some e } := by
        unfold mainModel
        rw [hres]
      rw [hmain]
      refine ⟨by simp, htr, ?_⟩
      intro hok
      simp [exceptOk] at hok
  | ok p =>
      obtain ⟨lang, opts⟩ := p
      obtain ⟨-, -, hpc, -, -⟩ :=
        resolveStage_ok resolve a lang opts (by rw [hres])
      have hmain : mainModel resolve env a
          = { trace := tr, error := some .colorsWithoutVerbose } := by
        unfold mainModel
        rw [hres]
        simp [hv, hpc, hc]
      rw [hmain]
      exact ⟨by simp, htr, fun _ => rfl⟩

/-- Claim C5, witness: `--print_colors True --verbose False` with
otherwise-default flags fails with the colors/verbose validation
error. -/
theorem c5_witness :
    (mainModel (fun l => l) ⟨true, true⟩ argsColors).error
      = some .colorsWithoutVerbose :=
  (c5_colors_require_verbose (fun l => l) ⟨true, true⟩ argsColors rfl rfl).2.2
    (by with_unfolding_all rfl)

/-- Claim C5, counterexample to the claim as stated: with
`--print_colors True --verbose False` AND `--suppress_tokens 1,x`, the
invocation fails with the suppress-token `ParseError`, not with the
claimed `ConfigValidationError`. -/
theorem c5_counterexample :
    (mainModel (fun l => l) ⟨true, true⟩ argsColorsBadTokens).error
        = some (.parseError (.invalidInt "x"))
      ∧ (mainModel (fun l => l) ⟨true, true⟩ argsColorsBadTokens).error
        ≠ some .colorsWithoutVerbose := by
  have h : (mainModel (fun l => l) ⟨true, true⟩ argsColorsBadTokens).error
      = some (.parseError (.invalidInt "x")) := by
    with_unfolding_all rfl
  refine ⟨h, ?_⟩
  rw [h]
  simp

/-- Claim C7 (corrected): with no audio inputs and live mode disabled,
the invocation writes the missing-input diagnostic to stderr and
terminates with no error and no engine or writer call — PROVIDED
resolution and validation raise no error (valid suppress tokens and
temperature step, colors only with verbose, custom directory payload
present); it is not true of every such invocation. -/
theorem c7_no_audio_noop (resolve : Option String → Option String)
    (env : Env) (a : Args) (ha : a.audio = [])
    (hl : a.live_transcribe = false)
    (hok : exceptOk (resolveStage resolve a).2 = true)
    (hcv : a.print_colors = true → a.verbose = true)
    (hmd : pyTruthyOpt a.model_directory = true → env.modelBinExists = true) :
    (mainModel resolve env a).error = none
    ∧ Event.stderrOut noAudioMsg ∈ (mainModel resolve env a).trace
    ∧ ∀ ev ∈ (mainModel resolve env a).trace, isCallEvent ev = false := by
  rcases hres : resolveStage resolve a with ⟨tr, res⟩
  have htr : ∀ ev ∈ tr, isCallEvent ev = false := by
    have h := resolveStage_no_calls resolve a
    rw [hres] at h
    exact h
  cases res with
  | error e =>
      rw [hres] at hok
      simp [exceptOk] at hok
  | ok p =>
      obtain ⟨lang, opts⟩ := p
      obtain ⟨-, -, hpc, -, -⟩ :=
        resolveStage_ok resolve a lang opts (by rw [hres])
      have hc1 : (!a.verbose && opts.print_colors) = false := by
        rw [hpc]
        cases hb : a.print_colors
        · simp
        · simp [hcv hb]
      have hc2 : (a.live_transcribe && !env.liveAvailable) = false := by
        rw [hl]; simp
      have hc3 : (pyTruthyOpt a.model_directory && !env.modelBinExists)
          = false := by
        cases hm : pyTruthyOpt a.model_directory
        · simp
        · simp [hmd hm]
      have hempty : a.audio.isEmpty = true := by rw [ha]; rfl
      have hmain : mainModel resolve env a
          = { trace := tr
                ++ (if a.verbose && !pyTruthyOpt lang then
                      [Event.stdout detectLanguageMsg] else [])
                ++ (if opts.print_colors && (a.output_dir != "")
                      && !opts.word_timestamps then
                      [Event.stdout colorsNeedTimestampsMsg] else [])
                ++ [Event.stderrOut noAudioMsg],
              error := none } := by
        unfold mainModel
        rw [hres]
        simp [hc1, hc2, hc3, hempty, hl]
      rw [hmain]
      refine ⟨rfl, by simp, ?_⟩
      refine no_calls_append (no_calls_append (no_calls_append htr ?_) ?_) ?_
      · exact no_calls_stdout_if _ _
      · exact no_calls_stdout_if _ _
      · simp [isCallEvent]

/-- Claim C7, witness: the all-defaults invocation (no audio, no live
flag) ends cleanly with the stderr diagnostic and no calls. -/
theorem c7_witness :
    (mainModel (fun l => l) ⟨true, true⟩ defaultArgs).error = none
      ∧ Event.stderrOut noAudioMsg
          ∈ (mainModel (fun l => l) ⟨true, true⟩ defaultArgs).trace := by
  have h := c7_no_audio_noop (fun l => l) ⟨true, true⟩ defaultArgs rfl rfl
    (by with_unfolding_all rfl) (by intro h; exact absurd h (by decide))
    (by intro h; exact absurd h (by decide))
  exact ⟨h.1, h.2.1⟩

/-- Claim C7, counterexample to the claim as stated: no audio inputs and
live mode disabled, but `--print_colors True --verbose False` — the
invocation raises the colors/verbose error instead of terminating
cleanly. -/
theorem c7_counterexample :
    (mainModel (fun l => l) ⟨true, true⟩ argsNoAudioColors).error
        = some .colorsWithoutVerbose
      ∧ (mainModel (fun l => l) ⟨true, true⟩ argsNoAudioColors).error
        ≠ none := by
  have h : (mainModel (fun l => l) ⟨true, true⟩ argsNoAudioColors).error
      = some .colorsWithoutVerbose := by
    with_unfolding_all rfl
  refine ⟨h, ?_⟩
  rw [h]
  simp

/-- Claim C8 (confirmed): a batch invocation — live flag off, at least
one input, resolution and validation succeeding so the dispatcher
reaches the batch loop — invokes the engine and the writer exactly once
per input path, in input order, each engine call immediately followed
by that path's writer call: the call events of the trace are exactly
`engine p₁, writer p₁, engine p₂, writer p₂, …` over the input list. -/
theorem c8_batch_loop (resolve : Option String → Option String)
    (env : Env) (a : Args) (hl : a.live_transcribe = false)
    (ha : a.audio ≠ [])
    (hok : exceptOk (resolveStage resolve a).2 = true)
    (hcv : a.print_colors = true → a.verbose = true)
    (hmd : pyTruthyOpt a.model_directory = true → env.modelBinExists = true) :
    (mainModel resolve env a).error = none
    ∧ (mainModel resolve env a).trace.filter isCallEvent
        = a.audio.flatMap
            (fun p => [Event.engineCall p, Event.writerCall p]) := by
  rcases hres : resolveStage resolve a with ⟨tr, res⟩
  have htr : ∀ ev ∈ tr, isCallEvent ev = false := by
    have h := resolveStage_no_calls resolve a
    rw [hres] at h
    exact h
  cases res with
  | error e =>
      rw [hres] at hok
      simp [exceptOk] at hok
  | ok p =>
      obtain ⟨lang, opts⟩ := p
      obtain ⟨-, -, hpc, -, -⟩ :=
        resolveStage_ok resolve a lang opts (by rw [hres])
      have hc1 : (!a.verbose && opts.print_colors) = false := by
        rw [hpc]
        cases hb : a.print_colors
        · simp
        · simp [hcv hb]
      have hc2 : (a.live_transcribe && !env.liveAvailable) = false := by
        rw [hl]; simp
      have hc3 : (pyTruthyOpt a.model_directory && !env.modelBinExists)
          = false := by
        cases hm : pyTruthyOpt a.model_directory
        · simp
        · simp [hmd hm]
      have hempty : a.audio.isEmpty = false := by
        cases haud : a.audio with
        | nil => exact absurd haud ha
        | cons x xs => rfl
      have hmain : mainModel resolve env a
          = { trace := tr
                ++ (if a.verbose && !pyTruthyOpt lang then
                      [Event.stdout detectLanguageMsg] else [])
                ++ (if opts.print_colors && (a.output_dir != "")
                      && !opts.word_timestamps then
                      [Event.stdout colorsNeedTimestampsMsg] else [])
                ++ a.audio.flatMap
                    (fun p => [Event.engineCall p, Event.writerCall p]),
              error := none } := by
        unfold mainModel
        rw [hres]
        simp [hc1, hc2, hc3, hempty, hl]
      rw [hmain]
      refine ⟨rfl, ?_⟩
      have hpre : ∀ ev ∈ tr
          ++ (if a.verbose && !pyTruthyOpt lang then
                [Event.stdout detectLanguageMsg] else [])
          ++ (if opts.print_colors && (a.output_dir != "")
                && !opts.word_timestamps then
                [Event.stdout colorsNeedTimestampsMsg] else []),
          isCallEvent ev = false := by
        refine no_calls_append (no_calls_append htr ?_) ?_
        · exact no_calls_stdout_if _ _
        · exact no_calls_stdout_if _ _
      have h1 : (tr
          ++ (if a.verbose && !pyTruthyOpt lang then
                [Event.stdout detectLanguageMsg] else [])
          ++ (if opts.print_colors && (a.output_dir != "")
                && !opts.word_timestamps then
                [Event.stdout colorsNeedTimestampsMsg] else [])).filter
            isCallEvent = [] := by
        rw [List.filter_eq_nil_iff]
        intro ev hev
        simp [hpre ev hev]
      have h2 : (a.audio.flatMap
          (fun p => [Event.engineCall p, Event.writerCall p])).filter
            isCallEvent
          = a.audio.flatMap
              (fun p => [Event.engineCall p, Event.writerCall p]) := by
        rw [List.filter_eq_self]
        intro ev hev
        obtain ⟨q, -, hq⟩ := List.mem_flatMap.mp hev
        simp only [List.mem_cons, List.not_mem_nil, or_false] at hq
        rcases hq with h | h <;> (rw [h]; rfl)
      rw [List.filter_append, h1, h2, List.nil_append]

/-- Claim C8, witness: two inputs `a.wav`, `b.wav` produce exactly the
interleaved call sequence engine/writer/engine/writer in input order. -/
theorem c8_witness :
    (mainModel (fun l => l) ⟨true, true⟩ argsBatch).error = none
      ∧ (mainModel (fun l => l) ⟨true, true⟩ argsBatch).trace.filter
            isCallEvent
          = [Event.engineCall "a.wav", Event.writerCall "a.wav",
              Event.engineCall "b.wav", Event.writerCall "b.wav"] := by
  have h := c8_batch_loop (fun l => l) ⟨true, true⟩ argsBatch rfl
    (by simp [argsBatch]) (by with_unfolding_all rfl)
    (by intro h; exact absurd h (by decide))
    (by intro h; exact absurd h (by decide))
  refine ⟨h.1, ?_⟩
  rw [h.2]
  with_unfolding_all rfl

/-- Claim C6 (confirmed): the suppress-tokens string is split on commas
and parsed, in order, into the corresponding integers (`"-1"` gives
`[-1]`, `"1,2,3"` gives `[1,2,3]`); any unparseable element makes the
whole parse fail with an error naming an offending substring, and no
list is produced. -/
theorem c6_suppress_tokens :
    parseSuppressTokens "-1" = .ok [-1]
    ∧ parseSuppressTokens "1,2,3" = .ok [1, 2, 3]
    ∧ parseSuppressTokens "1,x" = .error (.invalidInt "x")
    ∧ (∀ s l, parseSuppressTokens s = .ok l →
        List.Forall₂ (fun t n => pythonInt t = some n) (pySplitComma s) l)
    ∧ (∀ s t, t ∈ pySplitComma s → pythonInt t = none →
        ∃ u, u ∈ pySplitComma s ∧ pythonInt u = none
          ∧ parseSuppressTokens s = .error (.invalidInt u)) := by
  refine ⟨by with_unfolding_all rfl, by with_unfolding_all rfl,
    by with_unfolding_all rfl, ?_, ?_⟩
  · intro s l h
    exact parseIntList_ok_forall2 _ _ h
  · intro s t ht htn
    exact parseIntList_error_of_mem _ _ ht htn

/-- Claim C6, witness: instantiating the ordered-parse and the failure
parts on `"5,6"` and `"7,y"`. -/
theorem c6_witness :
    List.Forall₂ (fun t n => pythonInt t = some n) (pySplitComma "5,6") [5, 6]
      ∧ ∃ u, u ∈ pySplitComma "7,y" ∧ pythonInt u = none
          ∧ parseSuppressTokens "7,y" = .error (.invalidInt u) := by
  obtain ⟨-, -, -, h4, h5⟩ := c6_suppress_tokens
  exact ⟨h4 "5,6" [5, 6] (by with_unfolding_all rfl),
    h5 "7,y" "y" (by with_unfolding_all decide) (by with_unfolding_all rfl)⟩

/-- Claim C9 (confirmed): `optional_int` maps the literal `"None"` to
absence, any token Python `int` parses to its value, and any other
token to a `ParseError`; `str2bool` accepts exactly `"True"`/`"False"`
and otherwise fails with an error naming the offending token and the
accepted set. -/
theorem c9_scalar_coercers :
    optional_int "None" = .ok none
    ∧ (∀ s n, pythonInt s = some n → optional_int s = .ok (some n))
    ∧ (∀ s, s ≠ "None" → pythonInt s = none →
        optional_int s = .error (.invalidInt s))
    ∧ (∀ s b, str2bool s = .ok b ↔
        ((s = "True" ∧ b = true) ∨ (s = "False" ∧ b = false)))
    ∧ (∀ s, s ≠ "True" → s ≠ "False" →
        str2bool s = .error (.expectedOneOf ["True", "False"] s)) := by
  refine ⟨rfl, ?_, ?_, ?_, ?_⟩
  · intro s n h
    have hs : s ≠ "None" := by
      intro heq
      rw [heq] at h
      have : pythonInt "None" = none := by with_unfolding_all rfl
      rw [this] at h
      cases h
    simp [optional_int, hs, h]
  · intro s hs h
    simp [optional_int, hs, h]
  · intro s b
    by_cases h1 : s = "True"
    · subst h1
      simp [str2bool, eq_comm]
    · by_cases h2 : s = "False"
      · subst h2
        simp [str2bool, eq_comm]
      · simp [str2bool, h1, h2]
  · intro s h1 h2
    simp [str2bool, h1, h2]

/-- Claim C9, witness: `"5"` parses to `5`, `"x"` fails naming `"x"`,
and `"Maybe"` fails naming the token and the accepted set. -/
theorem c9_witness :
    optional_int "5" = .ok (some 5)
    ∧ optional_int "x" = .error (.invalidInt "x")
    ∧ str2bool "Maybe" = .error (.expectedOneOf ["True", "False"] "Maybe") := by
  obtain ⟨-, h2, h3, -, h5⟩ := c9_scalar_coercers
  exact ⟨h2 "5" 5 (by with_unfolding_all rfl),
    h3 "x" (by decide) (by with_unfolding_all rfl),
    h5 "Maybe" (by decide) (by decide)⟩

/-- Claim C10 (confirmed): the `--vad_filter` coercion (Python `bool`)
is true on every nonempty token — including the literal `"False"` —
and false exactly on the empty string; it is a total function, unlike
the strict `str2bool` used by the other boolean flags, which maps
`"False"` to `false`. -/
theorem c10_vad_filter_coercion :
    (∀ s, pythonBool s = true ↔ s ≠ "")
    ∧ pythonBool "False" = true
    ∧ pythonBool "" = false
    ∧ str2bool "False" = .ok false := by
  refine ⟨fun s => ?_, by decide, by decide, by decide⟩
  simp [pythonBool]

/-- Claim C10, witness: the token `"x"` is truthy. -/
theorem c10_witness : pythonBool "x" = true :=
  (c10_vad_filter_coercion.1 "x").mpr (by decide)

end WhisperCT
